import Mathlib

/-!
Verification of `mutation-typeorm`, a TypeScript package whose single source
file `src/interface/entity-and-event.interface.ts` defines the abstract class
`AbstractTypeOrmDomainMutationEventService<EN, D>` with operations `create`,
`update` and `delete`.  Each operation runs a subclass hook, an event publish
and a persistence action inside one `transactionService.transaction` call.

The embedding models each operation as a computation producing a trace of
observable effects (collaborator calls and transaction markers) together with
an `Except` result standing for the promise resolution or rejection.  The
external collaborators (the subclass hooks, the event publisher, the
persistence manager of the query runner, and a possible failure of the
transaction commit itself) are supplied as an explicit environment, so the
theorems quantify over every possible collaborator behaviour.  The query
runner handle supplied by the transaction manager is identified by a natural
number, and every effect records the handle it was invoked on.
-/

namespace MutationTypeOrm

/-- One observable effect of an operation: a transaction lifecycle marker or a
call to a collaborator.  `EN` is the entity type, `Ev` the domain event type.
Each collaborator call records the query-runner handle it was made with. -/
inductive Effect (EN Ev : Type) where
  | txBegin (qr : Nat)
  | txCommit (qr : Nat)
  | txRollback (qr : Nat)
  | txCommitFail (qr : Nat)
  | hookCreate (qr : Nat)
  | hookUpdate (qr : Nat)
  | hookDelete (qr : Nat)
  | factoryCreate (qr : Nat)
  | publish (qr : Nat) (ev : Ev)
  | save (qr : Nat) (en : EN)
  | remove (qr : Nat) (en : EN)
  | consoleLog (en : EN)
  deriving DecidableEq

/-- The collaborators of `AbstractTypeOrmDomainMutationEventService`: the three
abstract hooks, the publisher produced by `eventPublisherFactory.create`, the
`save`/`remove` primitives of `queryRunner.manager`, and a possible failure of
the transaction manager's own commit step.  `D` is the input DTO type and `ε`
the type of error values carried by rejected promises. -/
structure Env (EN D Ev ε : Type) where
  getEntityForCreateAndEvent : Nat → D → Except ε (EN × Ev)
  getEntityForUpdateAndEvent : Nat → String → D → Except ε (EN × Ev)
  getEntityForDeleteAndEvent : Nat → String → Except ε (EN × Ev)
  publish : Nat → Ev → Except ε Unit
  save : Nat → EN → Except ε EN
  remove : Nat → EN → Except ε EN
  commitFail : Option ε

/-- A computation: the trace of effects it performs plus its promise outcome. -/
abbrev Eff (EN Ev ε α : Type) := List (Effect EN Ev) × Except ε α

/-- Sequencing of awaited steps: a rejection short-circuits, keeping the trace
of the effects performed before the failure. -/
def bindE {EN Ev ε α β : Type} (x : Eff EN Ev ε α) (f : α → Eff EN Ev ε β) :
    Eff EN Ev ε β :=
  match x with
  | (tr, Except.error e) => (tr, Except.error e)
  | (tr, Except.ok a) => (tr ++ (f a).1, (f a).2)

/-- A computation with no effects that resolves with `a`. -/
def pureE {EN Ev ε α : Type} (a : α) : Eff EN Ev ε α := ([], Except.ok a)

/-- The transaction manager contract (spec section 6): `transaction work` runs
`work` with a fresh query-runner handle, commits if `work` resolves and rolls
back if it rejects, propagating the resolution or rejection; a failure of the
commit step itself rejects with the commit error. -/
def transaction {EN Ev ε α : Type} (commitFail : Option ε) (qr : Nat)
    (work : Nat → Eff EN Ev ε α) : Eff EN Ev ε α :=
  match work qr with
  | (tr, Except.error e) =>
      (Effect.txBegin qr :: tr ++ [Effect.txRollback qr], Except.error e)
  | (tr, Except.ok a) =>
      match commitFail with
      | none => (Effect.txBegin qr :: tr ++ [Effect.txCommit qr], Except.ok a)
      | some e =>
          (Effect.txBegin qr :: tr ++ [Effect.txCommitFail qr], Except.error e)

/-- `await this.getEntityForCreateAndEvent(queryRunner, data)`. -/
def callCreateHook {EN D Ev ε : Type} (env : Env EN D Ev ε) (qr : Nat)
    (data : D) : Eff EN Ev ε (EN × Ev) :=
  ([Effect.hookCreate qr], env.getEntityForCreateAndEvent qr data)

/-- `await this.getEntityForUpdateAndEvent(queryRunner, id, data)`. -/
def callUpdateHook {EN D Ev ε : Type} (env : Env EN D Ev ε) (qr : Nat)
    (id : String) (data : D) : Eff EN Ev ε (EN × Ev) :=
  ([Effect.hookUpdate qr], env.getEntityForUpdateAndEvent qr id data)

/-- `await this.getEntityForDeleteAndEvent(queryRunner, id)`. -/
def callDeleteHook {EN D Ev ε : Type} (env : Env EN D Ev ε) (qr : Nat)
    (id : String) : Eff EN Ev ε (EN × Ev) :=
  ([Effect.hookDelete qr], env.getEntityForDeleteAndEvent qr id)

/-- `this.eventPublisherFactory.create({ queryRunner })` — synchronous,
always succeeds, returns the publisher bound to `qr`. -/
def callFactory {EN Ev ε : Type} (qr : Nat) : Eff EN Ev ε Unit :=
  ([Effect.factoryCreate qr], Except.ok ())

/-- `await eventPublisher.publish(event)` on the publisher bound to `qr`. -/
def callPublish {EN D Ev ε : Type} (env : Env EN D Ev ε) (qr : Nat)
    (ev : Ev) : Eff EN Ev ε Unit :=
  ([Effect.publish qr ev], env.publish qr ev)

/-- `queryRunner.manager.save(entity)`. -/
def callSave {EN D Ev ε : Type} (env : Env EN D Ev ε) (qr : Nat)
    (en : EN) : Eff EN Ev ε EN :=
  ([Effect.save qr en], env.save qr en)

/-- `queryRunner.manager.remove(entity)`. -/
def callRemove {EN D Ev ε : Type} (env : Env EN D Ev ε) (qr : Nat)
    (en : EN) : Eff EN Ev ε EN :=
  ([Effect.remove qr en], env.remove qr en)

/-- `console.log(update)` — always succeeds. -/
def callLog {EN Ev ε : Type} (en : EN) : Eff EN Ev ε Unit :=
  ([Effect.consoleLog en], Except.ok ())

/-- `create(data)` (source lines 34-52): inside one transaction, run the create
hook, build the publisher from the factory, publish the event, then save the
entity and resolve with the value `save` returned. -/
def create {EN D Ev ε : Type} (env : Env EN D Ev ε) (qr : Nat) (data : D) :
    Eff EN Ev ε EN :=
  transaction env.commitFail qr (fun q =>
    bindE (callCreateHook env q data) (fun pair =>
    bindE (callFactory q) (fun _ =>
    bindE (callPublish env q pair.2) (fun _ =>
    callSave env q pair.1))))

/-- `update(id, data)` (source lines 62-85): inside one transaction, run the
update hook, build the publisher, save the entity, `console.log` the saved
value, publish the event, then resolve with the saved value. -/
def update {EN D Ev ε : Type} (env : Env EN D Ev ε) (qr : Nat) (id : String)
    (data : D) : Eff EN Ev ε EN :=
  transaction env.commitFail qr (fun q =>
    bindE (callUpdateHook env q id data) (fun pair =>
    bindE (callFactory q) (fun _ =>
    bindE (callSave env q pair.1) (fun upd =>
    bindE (callLog upd) (fun _ =>
    bindE (callPublish env q pair.2) (fun _ =>
    pureE upd))))))

/-- The transaction started by `delete(id)` (source lines 93-105): run the
delete hook, build the publisher, publish the event, then remove the entity. -/
def deleteTransaction {EN D Ev ε : Type} (env : Env EN D Ev ε) (qr : Nat)
    (id : String) : Eff EN Ev ε EN :=
  transaction env.commitFail qr (fun q =>
    bindE (callDeleteHook env q id) (fun pair =>
    bindE (callFactory q) (fun _ =>
    bindE (callPublish env q pair.2) (fun _ =>
    callRemove env q pair.1))))

/-- `delete(id)` (source lines 92-106): starts `deleteTransaction` WITHOUT
awaiting it — the transaction's effects still happen, but its outcome is
discarded and the operation's own promise resolves with no value. -/
def delete {EN D Ev ε : Type} (env : Env EN D Ev ε) (qr : Nat) (id : String) :
    Eff EN Ev ε Unit :=
  ((deleteTransaction env qr id).1, Except.ok ())

/-- Is the effect a publish call? -/
def isPublish {EN Ev : Type} : Effect EN Ev → Bool
  | Effect.publish _ _ => true
  | _ => false

/-- Is the effect a save call? -/
def isSave {EN Ev : Type} : Effect EN Ev → Bool
  | Effect.save _ _ => true
  | _ => false

/-- Is the effect a remove call? -/
def isRemove {EN Ev : Type} : Effect EN Ev → Bool
  | Effect.remove _ _ => true
  | _ => false

/-- Is the effect an invocation of the event publisher factory? -/
def isFactory {EN Ev : Type} : Effect EN Ev → Bool
  | Effect.factoryCreate _ => true
  | _ => false

/-- Is the effect a console-log write? -/
def isLog {EN Ev : Type} : Effect EN Ev → Bool
  | Effect.consoleLog _ => true
  | _ => false

/-- Is the effect a transaction lifecycle marker? -/
def isTxMark {EN Ev : Type} : Effect EN Ev → Bool
  | Effect.txBegin _ => true
  | Effect.txCommit _ => true
  | Effect.txRollback _ => true
  | Effect.txCommitFail _ => true
  | _ => false

/-- The query-runner handle a collaborator call was made with (`none` for
transaction markers and for `console.log`, which takes no handle). -/
def effectRunner {EN Ev : Type} : Effect EN Ev → Option Nat
  | Effect.hookCreate q => some q
  | Effect.hookUpdate q => some q
  | Effect.hookDelete q => some q
  | Effect.factoryCreate q => some q
  | Effect.publish q _ => some q
  | Effect.save q _ => some q
  | Effect.remove q _ => some q
  | _ => none

/-- Number of effects in a trace satisfying `p`. -/
def countP {EN Ev : Type} (p : Effect EN Ev → Bool)
    (tr : List (Effect EN Ev)) : Nat :=
  (tr.filter p).length

/-- Position of the first effect in a trace satisfying `p`, if any. -/
def firstIdx {EN Ev : Type} (p : Effect EN Ev → Bool) :
    List (Effect EN Ev) → Option Nat
  | [] => none
  | e :: rest => if p e then some 0 else (firstIdx p rest).map (· + 1)

/-- Is the effect a successful-commit marker? -/
def isCommit {EN Ev : Type} : Effect EN Ev → Bool
  | Effect.txCommit _ => true
  | _ => false

/-- The trace of `x` is one whole transaction on handle `q`: it opens with
`txBegin q`, closes with exactly one lifecycle marker, every collaborator call
in between runs on the handle `q` the transaction supplied (console logging
takes no handle), the closing marker is `txCommit` exactly when `x` resolved,
and a rejection closes with a rollback or a failed commit. -/
def InTxScope {EN Ev ε α : Type} (x : Eff EN Ev ε α) (q : Nat) : Prop :=
  ∃ body endEffect,
    x.1 = Effect.txBegin q :: body ++ [endEffect] ∧
    (∀ e ∈ body, isTxMark e = false ∧ (isLog e = true ∨ effectRunner e = some q)) ∧
    (∀ a, x.2 = Except.ok a → endEffect = Effect.txCommit q) ∧
    (∀ er, x.2 = Except.error er →
      endEffect = Effect.txRollback q ∨ endEffect = Effect.txCommitFail q)

/-- Concrete collaborators that all succeed: entities and events are numbers,
`save` bumps the entity by one so the saved value differs from the hook's. -/
def envOk : Env Nat Unit Nat Nat where
  getEntityForCreateAndEvent := fun _ _ => Except.ok (10, 100)
  getEntityForUpdateAndEvent := fun _ _ _ => Except.ok (11, 101)
  getEntityForDeleteAndEvent := fun _ _ => Except.ok (12, 102)
  publish := fun _ _ => Except.ok ()
  save := fun _ en => Except.ok (en + 1)
  remove := fun _ en => Except.ok en
  commitFail := none

/-- Concrete collaborators whose three hooks all reject (with errors 1, 2, 3
respectively); everything else succeeds. -/
def envHookFail : Env Nat Unit Nat Nat where
  getEntityForCreateAndEvent := fun _ _ => Except.error 1
  getEntityForUpdateAndEvent := fun _ _ _ => Except.error 2
  getEntityForDeleteAndEvent := fun _ _ => Except.error 3
  publish := fun _ _ => Except.ok ()
  save := fun _ en => Except.ok en
  remove := fun _ en => Except.ok en
  commitFail := none

/-- Concrete collaborators whose publisher always rejects with error 5;
hooks, save and remove succeed. -/
def envPubFail : Env Nat Unit Nat Nat where
  getEntityForCreateAndEvent := fun _ _ => Except.ok (10, 100)
  getEntityForUpdateAndEvent := fun _ _ _ => Except.ok (11, 101)
  getEntityForDeleteAndEvent := fun _ _ => Except.ok (12, 102)
  publish := fun _ _ => Except.error 5
  save := fun _ en => Except.ok (en + 1)
  remove := fun _ en => Except.ok en
  commitFail := none

/-- The spec's concrete create scenario: entities are (optional id, name)
pairs, the hook returns an entity without an id, and `save` returns the same
entity with the generated id "1". -/
def envSpecCreate : Env (Option String × String) Unit Nat Nat where
  getEntityForCreateAndEvent := fun _ _ => Except.ok ((none, "A"), 100)
  getEntityForUpdateAndEvent := fun _ _ _ => Except.ok ((none, "A"), 101)
  getEntityForDeleteAndEvent := fun _ _ => Except.ok ((none, "A"), 102)
  publish := fun _ _ => Except.ok ()
  save := fun _ en => Except.ok (some "1", en.2)
  remove := fun _ en => Except.ok en
  commitFail := none

/-! ### Trace-shape lemmas: one per branch of each operation. -/

theorem create_shape_ok {EN D Ev ε : Type} (env : Env EN D Ev ε) (q : Nat)
    (data : D) (en saved : EN) (ev : Ev)
    (hHook : env.getEntityForCreateAndEvent q data = Except.ok (en, ev))
    (hPub : env.publish q ev = Except.ok ())
    (hSave : env.save q en = Except.ok saved)
    (hCommit : env.commitFail = none) :
    create env q data =
      ([Effect.txBegin q, Effect.hookCreate q, Effect.factoryCreate q,
        Effect.publish q ev, Effect.save q en, Effect.txCommit q],
       Except.ok saved) := by
  simp [create, transaction, bindE, callCreateHook, callFactory, callPublish,
    callSave, hHook, hPub, hSave, hCommit]

theorem create_shape_hookErr {EN D Ev ε : Type} (env : Env EN D Ev ε)
    (q : Nat) (data : D) (e : ε)
    (hHook : env.getEntityForCreateAndEvent q data = Except.error e) :
    create env q data =
      ([Effect.txBegin q, Effect.hookCreate q, Effect.txRollback q],
       Except.error e) := by
  simp [create, transaction, bindE, callCreateHook, hHook]

theorem create_shape_pubErr {EN D Ev ε : Type} (env : Env EN D Ev ε)
    (q : Nat) (data : D) (en : EN) (ev : Ev) (e : ε)
    (hHook : env.getEntityForCreateAndEvent q data = Except.ok (en, ev))
    (hPub : env.publish q ev = Except.error e) :
    create env q data =
      ([Effect.txBegin q, Effect.hookCreate q, Effect.factoryCreate q,
        Effect.publish q ev, Effect.txRollback q],
       Except.error e) := by
  simp [create, transaction, bindE, callCreateHook, callFactory, callPublish,
    hHook, hPub]

theorem create_shape_saveErr {EN D Ev ε : Type} (env : Env EN D Ev ε)
    (q : Nat) (data : D) (en : EN) (ev : Ev) (e : ε)
    (hHook : env.getEntityForCreateAndEvent q data = Except.ok (en, ev))
    (hPub : env.publish q ev = Except.ok ())
    (hSave : env.save q en = Except.error e) :
    create env q data =
      ([Effect.txBegin q, Effect.hookCreate q, Effect.factoryCreate q,
        Effect.publish q ev, Effect.save q en, Effect.txRollback q],
       Except.error e) := by
  simp [create, transaction, bindE, callCreateHook, callFactory, callPublish,
    callSave, hHook, hPub, hSave]

theorem create_shape_commitErr {EN D Ev ε : Type} (env : Env EN D Ev ε)
    (q : Nat) (data : D) (en saved : EN) (ev : Ev) (e : ε)
    (hHook : env.getEntityForCreateAndEvent q data = Except.ok (en, ev))
    (hPub : env.publish q ev = Except.ok ())
    (hSave : env.save q en = Except.ok saved)
    (hCommit : env.commitFail = some e) :
    create env q data =
      ([Effect.txBegin q, Effect.hookCreate q, Effect.factoryCreate q,
        Effect.publish q ev, Effect.save q en, Effect.txCommitFail q],
       Except.error e) := by
  simp [create, transaction, bindE, callCreateHook, callFactory, callPublish,
    callSave, hHook, hPub, hSave, hCommit]

theorem update_shape_ok {EN D Ev ε : Type} (env : Env EN D Ev ε) (q : Nat)
    (id : String) (data : D) (en saved : EN) (ev : Ev)
    (hHook : env.getEntityForUpdateAndEvent q id data = Except.ok (en, ev))
    (hSave : env.save q en = Except.ok saved)
    (hPub : env.publish q ev = Except.ok ())
    (hCommit : env.commitFail = none) :
    update env q id data =
      ([Effect.txBegin q, Effect.hookUpdate q, Effect.factoryCreate q,
        Effect.save q en, Effect.consoleLog saved, Effect.publish q ev,
        Effect.txCommit q],
       Except.ok saved) := by
  simp [update, transaction, bindE, pureE, callUpdateHook, callFactory,
    callSave, callLog, callPublish, hHook, hSave, hPub, hCommit]

theorem update_shape_hookErr {EN D Ev ε : Type} (env : Env EN D Ev ε)
    (q : Nat) (id : String) (data : D) (e : ε)
    (hHook : env.getEntityForUpdateAndEvent q id data = Except.error e) :
    update env q id data =
      ([Effect.txBegin q, Effect.hookUpdate q, Effect.txRollback q],
       Except.error e) := by
  simp [update, transaction, bindE, callUpdateHook, hHook]

theorem update_shape_saveErr {EN D Ev ε : Type} (env : Env EN D Ev ε)
    (q : Nat) (id : String) (data : D) (en : EN) (ev : Ev) (e : ε)
    (hHook : env.getEntityForUpdateAndEvent q id data = Except.ok (en, ev))
    (hSave : env.save q en = Except.error e) :
    update env q id data =
      ([Effect.txBegin q, Effect.hookUpdate q, Effect.factoryCreate q,
        Effect.save q en, Effect.txRollback q],
       Except.error e) := by
  simp [update, transaction, bindE, callUpdateHook, callFactory, callSave,
    hHook, hSave]

theorem update_shape_pubErr {EN D Ev ε : Type} (env : Env EN D Ev ε)
    (q : Nat) (id : String) (data : D) (en saved : EN) (ev : Ev) (e : ε)
    (hHook : env.getEntityForUpdateAndEvent q id data = Except.ok (en, ev))
    (hSave : env.save q en = Except.ok saved)
    (hPub : env.publish q ev = Except.error e) :
    update env q id data =
      ([Effect.txBegin q, Effect.hookUpdate q, Effect.factoryCreate q,
        Effect.save q en, Effect.consoleLog saved, Effect.publish q ev,
        Effect.txRollback q],
       Except.error e) := by
  simp [update, transaction, bindE, callUpdateHook, callFactory, callSave,
    callLog, callPublish, hHook, hSave, hPub]

theorem update_shape_commitErr {EN D Ev ε : Type} (env : Env EN D Ev ε)
    (q : Nat) (id : String) (data : D) (en saved : EN) (ev : Ev) (e : ε)
    (hHook : env.getEntityForUpdateAndEvent q id data = Except.ok (en, ev))
    (hSave : env.save q en = Except.ok saved)
    (hPub : env.publish q ev = Except.ok ())
    (hCommit : env.commitFail = some e) :
    update env q id data =
      ([Effect.txBegin q, Effect.hookUpdate q, Effect.factoryCreate q,
        Effect.save q en, Effect.consoleLog saved, Effect.publish q ev,
        Effect.txCommitFail q],
       Except.error e) := by
  simp [update, transaction, bindE, pureE, callUpdateHook, callFactory,
    callSave, callLog, callPublish, hHook, hSave, hPub, hCommit]

theorem deleteTransaction_shape_ok {EN D Ev ε : Type} (env : Env EN D Ev ε)
    (q : Nat) (id : String) (en removed : EN) (ev : Ev)
    (hHook : env.getEntityForDeleteAndEvent q id = Except.ok (en, ev))
    (hPub : env.publish q ev = Except.ok ())
    (hRem : env.remove q en = Except.ok removed)
    (hCommit : env.commitFail = none) :
    deleteTransaction env q id =
      ([Effect.txBegin q, Effect.hookDelete q, Effect.factoryCreate q,
        Effect.publish q ev, Effect.remove q en, Effect.txCommit q],
       Except.ok removed) := by
  simp [deleteTransaction, transaction, bindE, callDeleteHook, callFactory,
    callPublish, callRemove, hHook, hPub, hRem, hCommit]

theorem deleteTransaction_shape_hookErr {EN D Ev ε : Type}
    (env : Env EN D Ev ε) (q : Nat) (id : String) (e : ε)
    (hHook : env.getEntityForDeleteAndEvent q id = Except.error e) :
    deleteTransaction env q id =
      ([Effect.txBegin q, Effect.hookDelete q, Effect.txRollback q],
       Except.error e) := by
  simp [deleteTransaction, transaction, bindE, callDeleteHook, hHook]

theorem deleteTransaction_shape_pubErr {EN D Ev ε : Type}
    (env : Env EN D Ev ε) (q : Nat) (id : String) (en : EN) (ev : Ev) (e : ε)
    (hHook : env.getEntityForDeleteAndEvent q id = Except.ok (en, ev))
    (hPub : env.publish q ev = Except.error e) :
    deleteTransaction env q id =
      ([Effect.txBegin q, Effect.hookDelete q, Effect.factoryCreate q,
        Effect.publish q ev, Effect.txRollback q],
       Except.error e) := by
  simp [deleteTransaction, transaction, bindE, callDeleteHook, callFactory,
    callPublish, hHook, hPub]

theorem deleteTransaction_shape_removeErr {EN D Ev ε : Type}
    (env : Env EN D Ev ε) (q : Nat) (id : String) (en : EN) (ev : Ev) (e : ε)
    (hHook : env.getEntityForDeleteAndEvent q id = Except.ok (en, ev))
    (hPub : env.publish q ev = Except.ok ())
    (hRem : env.remove q en = Except.error e) :
    deleteTransaction env q id =
      ([Effect.txBegin q, Effect.hookDelete q, Effect.factoryCreate q,
        Effect.publish q ev, Effect.remove q en, Effect.txRollback q],
       Except.error e) := by
  simp [deleteTransaction, transaction, bindE, callDeleteHook, callFactory,
    callPublish, callRemove, hHook, hPub, hRem]

theorem deleteTransaction_shape_commitErr {EN D Ev ε : Type}
    (env : Env EN D Ev ε) (q : Nat) (id : String) (en removed : EN) (ev : Ev)
    (e : ε)
    (hHook : env.getEntityForDeleteAndEvent q id = Except.ok (en, ev))
    (hPub : env.publish q ev = Except.ok ())
    (hRem : env.remove q en = Except.ok removed)
    (hCommit : env.commitFail = some e) :
    deleteTransaction env q id =
      ([Effect.txBegin q, Effect.hookDelete q, Effect.factoryCreate q,
        Effect.publish q ev, Effect.remove q en, Effect.txCommitFail q],
       Except.error e) := by
  simp [deleteTransaction, transaction, bindE, callDeleteHook, callFactory,
    callPublish, callRemove, hHook, hPub, hRem, hCommit]

/-! ### Full case analyses over arbitrary collaborator behaviour. -/

theorem create_scoped {EN D Ev ε : Type} (env : Env EN D Ev ε) (q : Nat)
    (data : D) : InTxScope (create env q data) q := by
  cases hHook : env.getEntityForCreateAndEvent q data with
  | error e =>
      rw [create_shape_hookErr env q data e hHook]
      exact ⟨[Effect.hookCreate q], Effect.txRollback q, rfl,
        by simp [isTxMark, isLog, effectRunner],
        by intro a h; simp at h, fun er h => Or.inl rfl⟩
  | ok p =>
      obtain ⟨en, ev⟩ := p
      cases hPub : env.publish q ev with
      | error e =>
          rw [create_shape_pubErr env q data en ev e hHook hPub]
          exact ⟨[Effect.hookCreate q, Effect.factoryCreate q,
              Effect.publish q ev], Effect.txRollback q, rfl,
            by simp [isTxMark, isLog, effectRunner],
            by intro a h; simp at h, fun er h => Or.inl rfl⟩
      | ok u =>
          cases u
          cases hSave : env.save q en with
          | error e =>
              rw [create_shape_saveErr env q data en ev e hHook hPub hSave]
              exact ⟨[Effect.hookCreate q, Effect.factoryCreate q,
                  Effect.publish q ev, Effect.save q en], Effect.txRollback q,
                rfl, by simp [isTxMark, isLog, effectRunner],
                by intro a h; simp at h, fun er h => Or.inl rfl⟩
          | ok saved =>
              cases hCommit : env.commitFail with
              | none =>
                  rw [create_shape_ok env q data en saved ev hHook hPub hSave
                    hCommit]
                  exact ⟨[Effect.hookCreate q, Effect.factoryCreate q,
                      Effect.publish q ev, Effect.save q en],
                    Effect.txCommit q, rfl,
                    by simp [isTxMark, isLog, effectRunner],
                    fun a h => rfl, by intro er h; simp at h⟩
              | some e =>
                  rw [create_shape_commitErr env q data en saved ev e hHook
                    hPub hSave hCommit]
                  exact ⟨[Effect.hookCreate q, Effect.factoryCreate q,
                      Effect.publish q ev, Effect.save q en],
                    Effect.txCommitFail q, rfl,
                    by simp [isTxMark, isLog, effectRunner],
                    by intro a h; simp at h, fun er h => Or.inr rfl⟩

theorem update_scoped {EN D Ev ε : Type} (env : Env EN D Ev ε) (q : Nat)
    (id : String) (data : D) : InTxScope (update env q id data) q := by
  cases hHook : env.getEntityForUpdateAndEvent q id data with
  | error e =>
      rw [update_shape_hookErr env q id data e hHook]
      exact ⟨[Effect.hookUpdate q], Effect.txRollback q, rfl,
        by simp [isTxMark, isLog, effectRunner],
        by intro a h; simp at h, fun er h => Or.inl rfl⟩
  | ok p =>
      obtain ⟨en, ev⟩ := p
      cases hSave : env.save q en with
      | error e =>
          rw [update_shape_saveErr env q id data en ev e hHook hSave]
          exact ⟨[Effect.hookUpdate q, Effect.factoryCreate q,
              Effect.save q en], Effect.txRollback q, rfl,
            by simp [isTxMark, isLog, effectRunner],
            by intro a h; simp at h, fun er h => Or.inl rfl⟩
      | ok saved =>
          cases hPub : env.publish q ev with
          | error e =>
              rw [update_shape_pubErr env q id data en saved ev e hHook hSave
                hPub]
              exact ⟨[Effect.hookUpdate q, Effect.factoryCreate q,
                  Effect.save q en, Effect.consoleLog saved,
                  Effect.publish q ev], Effect.txRollback q, rfl,
                by simp [isTxMark, isLog, effectRunner],
                by intro a h; simp at h, fun er h => Or.inl rfl⟩
          | ok u =>
              cases u
              cases hCommit : env.commitFail with
              | none =>
                  rw [update_shape_ok env q id data en saved ev hHook hSave
                    hPub hCommit]
                  exact ⟨[Effect.hookUpdate q, Effect.factoryCreate q,
                      Effect.save q en, Effect.consoleLog saved,
                      Effect.publish q ev], Effect.txCommit q, rfl,
                    by simp [isTxMark, isLog, effectRunner],
                    fun a h => rfl, by intro er h; simp at h⟩
              | some e =>
                  rw [update_shape_commitErr env q id data en saved ev e hHook
                    hSave hPub hCommit]
                  exact ⟨[Effect.hookUpdate q, Effect.factoryCreate q,
                      Effect.save q en, Effect.consoleLog saved,
                      Effect.publish q ev], Effect.txCommitFail q, rfl,
                    by simp [isTxMark, isLog, effectRunner],
                    by intro a h; simp at h, fun er h => Or.inr rfl⟩

theorem deleteTransaction_scoped {EN D Ev ε : Type} (env : Env EN D Ev ε)
    (q : Nat) (id : String) : InTxScope (deleteTransaction env q id) q := by
  cases hHook : env.getEntityForDeleteAndEvent q id with
  | error e =>
      rw [deleteTransaction_shape_hookErr env q id e hHook]
      exact ⟨[Effect.hookDelete q], Effect.txRollback q, rfl,
        by simp [isTxMark, isLog, effectRunner],
        by intro a h; simp at h, fun er h => Or.inl rfl⟩
  | ok p =>
      obtain ⟨en, ev⟩ := p
      cases hPub : env.publish q ev with
      | error e =>
          rw [deleteTransaction_shape_pubErr env q id en ev e hHook hPub]
          exact ⟨[Effect.hookDelete q, Effect.factoryCreate q,
              Effect.publish q ev], Effect.txRollback q, rfl,
            by simp [isTxMark, isLog, effectRunner],
            by intro a h; simp at h, fun er h => Or.inl rfl⟩
      | ok u =>
          cases u
          cases hRem : env.remove q en with
          | error e =>
              rw [deleteTransaction_shape_removeErr env q id en ev e hHook
                hPub hRem]
              exact ⟨[Effect.hookDelete q, Effect.factoryCreate q,
                  Effect.publish q ev, Effect.remove q en],
                Effect.txRollback q, rfl,
                by simp [isTxMark, isLog, effectRunner],
                by intro a h; simp at h, fun er h => Or.inl rfl⟩
          | ok removed =>
              cases hCommit : env.commitFail with
              | none =>
                  rw [deleteTransaction_shape_ok env q id en removed ev hHook
                    hPub hRem hCommit]
                  exact ⟨[Effect.hookDelete q, Effect.factoryCreate q,
                      Effect.publish q ev, Effect.remove q en],
                    Effect.txCommit q, rfl,
                    by simp [isTxMark, isLog, effectRunner],
                    fun a h => rfl, by intro er h; simp at h⟩
              | some e =>
                  rw [deleteTransaction_shape_commitErr env q id en removed ev
                    e hHook hPub hRem hCommit]
                  exact ⟨[Effect.hookDelete q, Effect.factoryCreate q,
                      Effect.publish q ev, Effect.remove q en],
                    Effect.txCommitFail q, rfl,
                    by simp [isTxMark, isLog, effectRunner],
                    by intro a h; simp at h, fun er h => Or.inr rfl⟩

theorem create_no_log {EN D Ev ε : Type} (env : Env EN D Ev ε) (q : Nat)
    (data : D) : countP isLog (create env q data).1 = 0 := by
  cases hHook : env.getEntityForCreateAndEvent q data with
  | error e =>
      rw [create_shape_hookErr env q data e hHook]; simp [countP, isLog]
  | ok p =>
      obtain ⟨en, ev⟩ := p
      cases hPub : env.publish q ev with
      | error e =>
          rw [create_shape_pubErr env q data en ev e hHook hPub]
          simp [countP, isLog]
      | ok u =>
          cases u
          cases hSave : env.save q en with
          | error e =>
              rw [create_shape_saveErr env q data en ev e hHook hPub hSave]
              simp [countP, isLog]
          | ok saved =>
              cases hCommit : env.commitFail with
              | none =>
                  rw [create_shape_ok env q data en saved ev hHook hPub hSave
                    hCommit]
                  simp [countP, isLog]
              | some e =>
                  rw [create_shape_commitErr env q data en saved ev e hHook
                    hPub hSave hCommit]
                  simp [countP, isLog]

theorem delete_no_log {EN D Ev ε : Type} (env : Env EN D Ev ε) (q : Nat)
    (id : String) : countP isLog (delete env q id).1 = 0 := by
  show countP isLog (deleteTransaction env q id).1 = 0
  cases hHook : env.getEntityForDeleteAndEvent q id with
  | error e =>
      rw [deleteTransaction_shape_hookErr env q id e hHook]
      simp [countP, isLog]
  | ok p =>
      obtain ⟨en, ev⟩ := p
      cases hPub : env.publish q ev with
      | error e =>
          rw [deleteTransaction_shape_pubErr env q id en ev e hHook hPub]
          simp [countP, isLog]
      | ok u =>
          cases u
          cases hRem : env.remove q en with
          | error e =>
              rw [deleteTransaction_shape_removeErr env q id en ev e hHook
                hPub hRem]
              simp [countP, isLog]
          | ok removed =>
              cases hCommit : env.commitFail with
              | none =>
                  rw [deleteTransaction_shape_ok env q id en removed ev hHook
                    hPub hRem hCommit]
                  simp [countP, isLog]
              | some e =>
                  rw [deleteTransaction_shape_commitErr env q id en removed
                    ev e hHook hPub hRem hCommit]
                  simp [countP, isLog]

/-! ### Claim theorems. -/

/-- C1: For every invocation of create, update, or delete, the persistence
action (save or remove) and the event publish action are both executed inside
the work function of a single `transactionService.transaction` call, on the
same queryRunner handle the transaction supplied, and the transaction commits
exactly when every step succeeded — so neither effect can commit without the
other.  For delete the transaction in question is the one the operation
starts, whose trace is exactly the operation's trace. -/
theorem mutation_single_transaction_scope {EN D Ev ε : Type}
    (env : Env EN D Ev ε) (q : Nat) (data : D) (id : String) :
    InTxScope (create env q data) q ∧ InTxScope (update env q id data) q ∧
    (delete env q id).1 = (deleteTransaction env q id).1 ∧
    InTxScope (deleteTransaction env q id) q :=
  ⟨create_scoped env q data, update_scoped env q id data, rfl,
    deleteTransaction_scoped env q id⟩

/-- C2: When all collaborators succeed, create performs exactly one publish
call and exactly one save call, and the publish call happens before the save
call. -/
theorem create_publish_once_save_once_publish_first {EN D Ev ε : Type}
    (env : Env EN D Ev ε) (q : Nat) (data : D) (en saved : EN) (ev : Ev)
    (hHook : env.getEntityForCreateAndEvent q data = Except.ok (en, ev))
    (hPub : env.publish q ev = Except.ok ())
    (hSave : env.save q en = Except.ok saved)
    (hCommit : env.commitFail = none) :
    countP isPublish (create env q data).1 = 1 ∧
    countP isSave (create env q data).1 = 1 ∧
    ∃ i j, firstIdx isPublish (create env q data).1 = some i ∧
      firstIdx isSave (create env q data).1 = some j ∧ i < j := by
  rw [create_shape_ok env q data en saved ev hHook hPub hSave hCommit]
  refine ⟨by simp [countP, isPublish, isSave], by simp [countP, isSave],
    3, 4, ?_, ?_, by omega⟩
  · simp [firstIdx, isPublish]
  · simp [firstIdx, isSave]

theorem create_publish_once_save_once_publish_first_witness :
    envOk.getEntityForCreateAndEvent 0 () = Except.ok (10, 100) ∧
    envOk.publish 0 100 = Except.ok () ∧
    envOk.save 0 10 = Except.ok 11 ∧
    envOk.commitFail = none ∧
    countP isPublish (create envOk 0 ()).1 = 1 :=
  ⟨rfl, rfl, rfl, rfl,
    (create_publish_once_save_once_publish_first envOk 0 () 10 11 100 rfl rfl
      rfl rfl).1⟩

/-- C3: When all collaborators succeed, update performs exactly one save call
and exactly one publish call, with save happening before publish — the inverse
order from create — and resolves to the entity returned by save. -/
theorem update_save_once_publish_once_save_first {EN D Ev ε : Type}
    (env : Env EN D Ev ε) (q : Nat) (id : String) (data : D)
    (en saved : EN) (ev : Ev)
    (hHook : env.getEntityForUpdateAndEvent q id data = Except.ok (en, ev))
    (hSave : env.save q en = Except.ok saved)
    (hPub : env.publish q ev = Except.ok ())
    (hCommit : env.commitFail = none) :
    countP isSave (update env q id data).1 = 1 ∧
    countP isPublish (update env q id data).1 = 1 ∧
    (∃ i j, firstIdx isSave (update env q id data).1 = some i ∧
      firstIdx isPublish (update env q id data).1 = some j ∧ i < j) ∧
    (update env q id data).2 = Except.ok saved := by
  rw [update_shape_ok env q id data en saved ev hHook hSave hPub hCommit]
  refine ⟨by simp [countP, isSave], by simp [countP, isPublish],
    ⟨3, 5, ?_, ?_, by omega⟩, rfl⟩
  · simp [firstIdx, isSave]
  · simp [firstIdx, isPublish]

theorem update_save_once_publish_once_save_first_witness :
    envOk.getEntityForUpdateAndEvent 0 "x" () = Except.ok (11, 101) ∧
    envOk.save 0 11 = Except.ok 12 ∧
    envOk.publish 0 101 = Except.ok () ∧
    envOk.commitFail = none ∧
    (update envOk 0 "x" ()).2 = Except.ok 12 :=
  ⟨rfl, rfl, rfl, rfl,
    (update_save_once_publish_once_save_first envOk 0 "x" () 11 12 101 rfl rfl
      rfl rfl).2.2.2⟩

/-- C4: When all collaborators succeed, delete performs exactly one publish
call and exactly one remove call, with publish happening before remove, and
the operation resolves with no value. -/
theorem delete_publish_once_remove_once_publish_first {EN D Ev ε : Type}
    (env : Env EN D Ev ε) (q : Nat) (id : String) (en removed : EN) (ev : Ev)
    (hHook : env.getEntityForDeleteAndEvent q id = Except.ok (en, ev))
    (hPub : env.publish q ev = Except.ok ())
    (hRem : env.remove q en = Except.ok removed)
    (hCommit : env.commitFail = none) :
    countP isPublish (delete env q id).1 = 1 ∧
    countP isRemove (delete env q id).1 = 1 ∧
    (∃ i j, firstIdx isPublish (delete env q id).1 = some i ∧
      firstIdx isRemove (delete env q id).1 = some j ∧ i < j) ∧
    (delete env q id).2 = Except.ok () := by
  simp only [delete]
  rw [deleteTransaction_shape_ok env q id en removed ev hHook hPub hRem
    hCommit]
  refine ⟨by simp [countP, isPublish], by simp [countP, isRemove],
    ⟨3, 4, ?_, ?_, by omega⟩, trivial⟩
  · simp [firstIdx, isPublish]
  · simp [firstIdx, isRemove]

theorem delete_publish_once_remove_once_publish_first_witness :
    envOk.getEntityForDeleteAndEvent 0 "x" = Except.ok (12, 102) ∧
    envOk.publish 0 102 = Except.ok () ∧
    envOk.remove 0 12 = Except.ok 12 ∧
    envOk.commitFail = none ∧
    countP isRemove (delete envOk 0 "x").1 = 1 :=
  ⟨rfl, rfl, rfl, rfl,
    (delete_publish_once_remove_once_publish_first envOk 0 "x" 12 12 102 rfl
      rfl rfl rfl).2.1⟩

/-- C5: delete does not await the transaction it starts: its own promise
resolves with no value whatever the collaborators do, and in particular it
still resolves when the transaction's outcome is a rejection, so a failure
inside the delete transaction is not observable through delete's returned
promise (the transaction's effects still happen: its trace is delete's
trace). -/
theorem delete_resolves_independently {EN D Ev ε : Type}
    (env : Env EN D Ev ε) (q : Nat) (id : String) :
    (delete env q id).2 = Except.ok () ∧
    (∀ e : ε, (deleteTransaction env q id).2 = Except.error e →
      (delete env q id).2 = Except.ok ()) ∧
    (delete env q id).1 = (deleteTransaction env q id).1 :=
  ⟨rfl, fun _ _ => rfl, rfl⟩

/-- C6: If the subclass hook rejects, then in that invocation no publish,
save, or remove call occurs and the event publisher factory is never invoked,
and the transaction work function rejects with the hook's error (for create
and update this is also the operation's own outcome; for delete it is the
outcome of the transaction the operation started). -/
theorem hook_reject_no_calls {EN D Ev ε : Type} (env : Env EN D Ev ε)
    (q : Nat) (data : D) (id : String) (eC eU eD : ε)
    (hC : env.getEntityForCreateAndEvent q data = Except.error eC)
    (hU : env.getEntityForUpdateAndEvent q id data = Except.error eU)
    (hD : env.getEntityForDeleteAndEvent q id = Except.error eD) :
    ((create env q data).2 = Except.error eC ∧
      countP isPublish (create env q data).1 = 0 ∧
      countP isSave (create env q data).1 = 0 ∧
      countP isRemove (create env q data).1 = 0 ∧
      countP isFactory (create env q data).1 = 0) ∧
    ((update env q id data).2 = Except.error eU ∧
      countP isPublish (update env q id data).1 = 0 ∧
      countP isSave (update env q id data).1 = 0 ∧
      countP isRemove (update env q id data).1 = 0 ∧
      countP isFactory (update env q id data).1 = 0) ∧
    ((deleteTransaction env q id).2 = Except.error eD ∧
      countP isPublish (delete env q id).1 = 0 ∧
      countP isSave (delete env q id).1 = 0 ∧
      countP isRemove (delete env q id).1 = 0 ∧
      countP isFactory (delete env q id).1 = 0) := by
  refine ⟨?_, ?_, ?_⟩
  · rw [create_shape_hookErr env q data eC hC]
    exact ⟨rfl, by simp [countP, isPublish], by simp [countP, isSave],
      by simp [countP, isRemove], by simp [countP, isFactory]⟩
  · rw [update_shape_hookErr env q id data eU hU]
    exact ⟨rfl, by simp [countP, isPublish], by simp [countP, isSave],
      by simp [countP, isRemove], by simp [countP, isFactory]⟩
  · simp only [delete]
    rw [deleteTransaction_shape_hookErr env q id eD hD]
    exact ⟨rfl, by simp [countP, isPublish], by simp [countP, isSave],
      by simp [countP, isRemove], by simp [countP, isFactory]⟩

theorem hook_reject_no_calls_witness :
    envHookFail.getEntityForCreateAndEvent 0 () = Except.error 1 ∧
    envHookFail.getEntityForUpdateAndEvent 0 "x" () = Except.error 2 ∧
    envHookFail.getEntityForDeleteAndEvent 0 "x" = Except.error 3 ∧
    (create envHookFail 0 ()).2 = Except.error 1 :=
  ⟨rfl, rfl, rfl,
    (hook_reject_no_calls envHookFail 0 () "x" 1 2 3 rfl rfl rfl).1.1⟩

/-- C7: For create and update, every failure raised by the hook, the event
publisher, the persistence save call, or the transaction manager's own commit
propagates unchanged through the operation's outcome: the error the caller
receives is exactly the error the failing collaborator produced. -/
theorem create_update_error_propagation {EN D Ev ε : Type}
    (env : Env EN D Ev ε) (q : Nat) (data : D) (id : String) :
    (∀ e, env.getEntityForCreateAndEvent q data = Except.error e →
      (create env q data).2 = Except.error e) ∧
    (∀ en ev e, env.getEntityForCreateAndEvent q data = Except.ok (en, ev) →
      env.publish q ev = Except.error e →
      (create env q data).2 = Except.error e) ∧
    (∀ en ev e, env.getEntityForCreateAndEvent q data = Except.ok (en, ev) →
      env.publish q ev = Except.ok () → env.save q en = Except.error e →
      (create env q data).2 = Except.error e) ∧
    (∀ en saved ev e,
      env.getEntityForCreateAndEvent q data = Except.ok (en, ev) →
      env.publish q ev = Except.ok () → env.save q en = Except.ok saved →
      env.commitFail = some e → (create env q data).2 = Except.error e) ∧
    (∀ e, env.getEntityForUpdateAndEvent q id data = Except.error e →
      (update env q id data).2 = Except.error e) ∧
    (∀ en ev e, env.getEntityForUpdateAndEvent q id data = Except.ok (en, ev) →
      env.save q en = Except.error e →
      (update env q id data).2 = Except.error e) ∧
    (∀ en saved ev e,
      env.getEntityForUpdateAndEvent q id data = Except.ok (en, ev) →
      env.save q en = Except.ok saved → env.publish q ev = Except.error e →
      (update env q id data).2 = Except.error e) ∧
    (∀ en saved ev e,
      env.getEntityForUpdateAndEvent q id data = Except.ok (en, ev) →
      env.save q en = Except.ok saved → env.publish q ev = Except.ok () →
      env.commitFail = some e → (update env q id data).2 = Except.error e) := by
  refine ⟨?_, ?_, ?_, ?_, ?_, ?_, ?_, ?_⟩
  · intro e h; rw [create_shape_hookErr env q data e h]
  · intro en ev e h1 h2; rw [create_shape_pubErr env q data en ev e h1 h2]
  · intro en ev e h1 h2 h3
    rw [create_shape_saveErr env q data en ev e h1 h2 h3]
  · intro en saved ev e h1 h2 h3 h4
    rw [create_shape_commitErr env q data en saved ev e h1 h2 h3 h4]
  · intro e h; rw [update_shape_hookErr env q id data e h]
  · intro en ev e h1 h2; rw [update_shape_saveErr env q id data en ev e h1 h2]
  · intro en saved ev e h1 h2 h3
    rw [update_shape_pubErr env q id data en saved ev e h1 h2 h3]
  · intro en saved ev e h1 h2 h3 h4
    rw [update_shape_commitErr env q id data en saved ev e h1 h2 h3 h4]

theorem create_update_error_propagation_witness :
    envPubFail.getEntityForCreateAndEvent 0 () = Except.ok (10, 100) ∧
    envPubFail.publish 0 100 = Except.error 5 ∧
    (create envPubFail 0 ()).2 = Except.error 5 ∧
    envHookFail.getEntityForUpdateAndEvent 0 "x" () = Except.error 2 ∧
    (update envHookFail 0 "x" ()).2 = Except.error 2 :=
  ⟨rfl, rfl,
    (create_update_error_propagation envPubFail 0 () "x").2.1 10 100 5 rfl rfl,
    rfl,
    (create_update_error_propagation envHookFail 0 () "x").2.2.2.2.1 2 rfl⟩

/-- C8: create resolves to the value returned by the persistence save call,
not to the entity object the hook produced: whenever save returns `saved` the
operation's outcome is `saved`, even when `saved` differs from the hook's
entity (as in the spec scenario, where the hook's entity has no id and save
returns it with a generated id). -/
theorem create_resolves_with_saved {EN D Ev ε : Type} (env : Env EN D Ev ε)
    (q : Nat) (data : D) (en saved : EN) (ev : Ev)
    (hHook : env.getEntityForCreateAndEvent q data = Except.ok (en, ev))
    (hPub : env.publish q ev = Except.ok ())
    (hSave : env.save q en = Except.ok saved)
    (hCommit : env.commitFail = none) :
    (create env q data).2 = Except.ok saved := by
  rw [create_shape_ok env q data en saved ev hHook hPub hSave hCommit]

theorem create_resolves_with_saved_witness :
    envSpecCreate.getEntityForCreateAndEvent 0 () =
      Except.ok ((none, "A"), 100) ∧
    envSpecCreate.save 0 (none, "A") = Except.ok (some "1", "A") ∧
    ((none, "A") : Option String × String) ≠ (some "1", "A") ∧
    (create envSpecCreate 0 ()).2 = Except.ok (some "1", "A") :=
  ⟨rfl, rfl, by simp,
    create_resolves_with_saved envSpecCreate 0 () (none, "A") (some "1", "A")
      100 rfl rfl rfl rfl⟩

/-- C9: If the publish call rejects, then in create and delete (where publish
precedes the persistence action) no save or remove call occurs at all, and in
update the already-performed save sits inside the same rejected work function:
the trace carries no commit marker and ends with a rollback, and the outcome
is the publish error. -/
theorem publish_reject_rollback {EN D Ev ε : Type} (env : Env EN D Ev ε)
    (q : Nat) (data : D) (id : String)
    (enC enU savedU enD : EN) (evC evU evD : Ev) (eC eU eD : ε)
    (hC : env.getEntityForCreateAndEvent q data = Except.ok (enC, evC))
    (hPC : env.publish q evC = Except.error eC)
    (hU : env.getEntityForUpdateAndEvent q id data = Except.ok (enU, evU))
    (hSU : env.save q enU = Except.ok savedU)
    (hPU : env.publish q evU = Except.error eU)
    (hD : env.getEntityForDeleteAndEvent q id = Except.ok (enD, evD))
    (hPD : env.publish q evD = Except.error eD) :
    (countP isSave (create env q data).1 = 0 ∧
      (∃ pre, (create env q data).1 = pre ++ [Effect.txRollback q]) ∧
      (create env q data).2 = Except.error eC) ∧
    (countP isRemove (delete env q id).1 = 0 ∧
      (∃ pre, (delete env q id).1 = pre ++ [Effect.txRollback q]) ∧
      (deleteTransaction env q id).2 = Except.error eD) ∧
    (countP isSave (update env q id data).1 = 1 ∧
      countP isCommit (update env q id data).1 = 0 ∧
      (∃ pre, (update env q id data).1 = pre ++ [Effect.txRollback q]) ∧
      (update env q id data).2 = Except.error eU) := by
  refine ⟨?_, ?_, ?_⟩
  · rw [create_shape_pubErr env q data enC evC eC hC hPC]
    exact ⟨by simp [countP, isSave],
      ⟨[Effect.txBegin q, Effect.hookCreate q, Effect.factoryCreate q,
        Effect.publish q evC], rfl⟩, rfl⟩
  · simp only [delete]
    rw [deleteTransaction_shape_pubErr env q id enD evD eD hD hPD]
    exact ⟨by simp [countP, isRemove],
      ⟨[Effect.txBegin q, Effect.hookDelete q, Effect.factoryCreate q,
        Effect.publish q evD], rfl⟩, rfl⟩
  · rw [update_shape_pubErr env q id data enU savedU evU eU hU hSU hPU]
    exact ⟨by simp [countP, isSave], by simp [countP, isCommit],
      ⟨[Effect.txBegin q, Effect.hookUpdate q, Effect.factoryCreate q,
        Effect.save q enU, Effect.consoleLog savedU, Effect.publish q evU],
        rfl⟩, rfl⟩

theorem publish_reject_rollback_witness :
    envPubFail.getEntityForCreateAndEvent 0 () = Except.ok (10, 100) ∧
    envPubFail.publish 0 100 = Except.error 5 ∧
    envPubFail.save 0 11 = Except.ok 12 ∧
    countP isSave (create envPubFail 0 ()).1 = 0 ∧
    (update envPubFail 0 "x" ()).2 = Except.error 5 :=
  ⟨rfl, rfl, rfl,
    (publish_reject_rollback envPubFail 0 () "x" 10 11 12 12 100 101 102 5 5 5
      rfl rfl rfl rfl rfl rfl rfl).1.1,
    (publish_reject_rollback envPubFail 0 () "x" 10 11 12 12 100 101 102 5 5 5
      rfl rfl rfl rfl rfl rfl rfl).2.2.2.2.2⟩

/-- C10: Every successful update invocation performs an extra observable side
effect not in the spec's step sequence: after the save call resolves and
before the publish call, the saved entity is written to the console; create
and delete never log to the console, whatever the collaborators do. -/
theorem update_console_log_frame_effect {EN D Ev ε : Type}
    (env : Env EN D Ev ε) (q : Nat) (id : String) (data : D)
    (en saved : EN) (ev : Ev)
    (hHook : env.getEntityForUpdateAndEvent q id data = Except.ok (en, ev))
    (hSave : env.save q en = Except.ok saved)
    (hPub : env.publish q ev = Except.ok ())
    (hCommit : env.commitFail = none) :
    countP isLog (update env q id data).1 = 1 ∧
    (update env q id data).1.get? 4 = some (Effect.consoleLog saved) ∧
    (∃ i j k, firstIdx isSave (update env q id data).1 = some i ∧
      firstIdx isLog (update env q id data).1 = some j ∧
      firstIdx isPublish (update env q id data).1 = some k ∧ i < j ∧ j < k) ∧
    (∀ (env2 : Env EN D Ev ε) (q2 : Nat) (data2 : D) (id2 : String),
      countP isLog (create env2 q2 data2).1 = 0 ∧
      countP isLog (delete env2 q2 id2).1 = 0) := by
  rw [update_shape_ok env q id data en saved ev hHook hSave hPub hCommit]
  refine ⟨by simp [countP, isLog], rfl, ⟨3, 4, 5, ?_, ?_, ?_, by omega,
    by omega⟩, fun env2 q2 data2 id2 =>
      ⟨create_no_log env2 q2 data2, delete_no_log env2 q2 id2⟩⟩
  · simp [firstIdx, isSave]
  · simp [firstIdx, isLog]
  · simp [firstIdx, isPublish]

theorem update_console_log_frame_effect_witness :
    envOk.getEntityForUpdateAndEvent 0 "x" () = Except.ok (11, 101) ∧
    envOk.save 0 11 = Except.ok 12 ∧
    envOk.publish 0 101 = Except.ok () ∧
    envOk.commitFail = none ∧
    countP isLog (update envOk 0 "x" ()).1 = 1 :=
  ⟨rfl, rfl, rfl, rfl,
    (update_console_log_frame_effect envOk 0 "x" () 11 12 101 rfl rfl rfl
      rfl).1⟩

end MutationTypeOrm
